import Mathlib

/-!
Shallow embedding of the PortfolioAgent advice and backtest core
(src/core/services/advice and src/core/services/backtest).

Conventions of the embedding:
- Python floats are modelled as exact rationals, Python ints as Int.
- Python dicts that the code iterates or updates are modelled as
  insertion-ordered association lists.
- Python exceptions (ZeroDivisionError) are modelled with Except String.
- Calendar dates are modelled as an integer day ordinal; the isoformat
  rendering is modelled by dateIso below.
-/

/-- Python int() applied to a real number: truncation toward zero. -/
def pyInt (q : ℚ) : ℤ := if q < 0 then ⌈q⌉ else ⌊q⌋

/-- Python round() to an integer: round half to even. -/
def pyRound (q : ℚ) : ℤ :=
  if q - ⌊q⌋ < 1/2 then ⌊q⌋
  else if 1/2 < q - ⌊q⌋ then ⌊q⌋ + 1
  else if ⌊q⌋ % 2 = 0 then ⌊q⌋ else ⌊q⌋ + 1

/-- Model of date.isoformat on the integer day ordinal model of dates. -/
def dateIso (d : ℤ) : String := toString d

/-- AdviceType enum from core/domain/advice.py. -/
inductive AdviceType
  | strong_buy
  | buy
  | hold
  | reduce
  | sell
  | strong_sell
  | wait
  deriving DecidableEq, Repr

/-- ConfidenceLevel enum from core/domain/advice.py. -/
inductive ConfidenceLevel
  | high
  | medium
  | low
  deriving DecidableEq, Repr

/-- RuleResult dataclass from core/services/advice/rules/base.py.
The heterogeneous metadata dict is not modelled; no aggregation logic
reads it. The score field is declared int in the dataclass. -/
structure RuleResult where
  rule_name : String
  advice_type : AdviceType
  confidence : ConfidenceLevel
  score : ℤ
  reasons : List String
  risk_factors : List String
  deriving DecidableEq, Repr

/-- InvestmentAdvice entity from core/domain/advice.py, restricted to the
fields the aggregator fills (target prices, position plan and the advice
date stay at their defaults and are not modelled). -/
structure InvestmentAdvice where
  code : String
  name : String
  advice_type : AdviceType
  confidence : ConfidenceLevel
  current_price : ℚ
  reasons : List String
  risk_factors : List String
  score : ℤ
  source : String
  rule_sources : List String
  deriving DecidableEq, Repr

/-- Weight lookup in RuleAggregator.aggregate:
(rule_weights or empty dict).get(rule_name, 1.0). -/
def weightOf (rule_weights : Option (List (String × ℚ))) (nm : String) : ℚ :=
  match rule_weights with
  | none => 1
  | some ws =>
    match ws.lookup nm with
    | none => 1
    | some w => w

/-- One vote update on an insertion-ordered tally, modelling
votes[k] = votes.get(k, 0) + w on a Python dict. -/
def bumpVote {α : Type} [DecidableEq α] (votes : List (α × ℚ)) (k : α) (w : ℚ) :
    List (α × ℚ) :=
  match votes with
  | [] => [(k, w)]
  | (k2, v) :: rest =>
    if k2 = k then (k2, v + w) :: rest else (k2, v) :: bumpVote rest k w

/-- Python max(items, key equal to the value) over a nonempty tally:
keeps the first entry whose value is maximal. -/
def firstMaxGo {α : Type} (bk : α) (bv : ℚ) : List (α × ℚ) → α
  | [] => bk
  | (k, v) :: rest => if bv < v then firstMaxGo k v rest else firstMaxGo bk bv rest

/-- total_score accumulated by the aggregate loop: sum of score times weight. -/
def totalScore (rule_weights : Option (List (String × ℚ))) (rs : List RuleResult) : ℚ :=
  rs.foldl (fun acc r => acc + (r.score : ℚ) * weightOf rule_weights r.rule_name) 0

/-- total_weight accumulated by the aggregate loop. -/
def totalWeight (rule_weights : Option (List (String × ℚ))) (rs : List RuleResult) : ℚ :=
  rs.foldl (fun acc r => acc + weightOf rule_weights r.rule_name) 0

/-- advice_votes dict built by the aggregate loop. -/
def adviceVotes (rule_weights : Option (List (String × ℚ))) (rs : List RuleResult) :
    List (AdviceType × ℚ) :=
  rs.foldl (fun vs r => bumpVote vs r.advice_type (weightOf rule_weights r.rule_name)) []

/-- confidence_votes dict built by the aggregate loop. -/
def confidenceVotes (rule_weights : Option (List (String × ℚ))) (rs : List RuleResult) :
    List (ConfidenceLevel × ℚ) :=
  rs.foldl (fun vs r => bumpVote vs r.confidence (weightOf rule_weights r.rule_name)) []

/-- The score-driven override block at the end of RuleAggregator.aggregate. -/
def applyScoreOverride (final_score : ℤ) (a : AdviceType) : AdviceType :=
  if 80 ≤ final_score then AdviceType.strong_buy
  else if 65 ≤ final_score then
    if a = AdviceType.strong_buy ∨ a = AdviceType.buy then a else AdviceType.buy
  else if 50 ≤ final_score then
    if a = AdviceType.sell ∨ a = AdviceType.strong_sell then AdviceType.hold else a
  else if 35 ≤ final_score then AdviceType.wait
  else if a = AdviceType.sell ∨ a = AdviceType.strong_sell then a else AdviceType.sell

/-- RuleAggregator.aggregate from core/services/advice/aggregator.py. -/
def RuleAggregator_aggregate (rule_results : List RuleResult) (code : String)
    (name : String) (current_price : ℚ)
    (rule_weights : Option (List (String × ℚ))) : InvestmentAdvice :=
  if rule_results.isEmpty then
    { code := code, name := name, advice_type := AdviceType.wait,
      confidence := ConfidenceLevel.low, current_price := current_price,
      reasons := ["无规则评估结果"], risk_factors := [], score := 0,
      source := "系统分析", rule_sources := [] }
  else
    let total_score := totalScore rule_weights rule_results
    let total_weight := totalWeight rule_weights rule_results
    let all_reasons := rule_results.foldl (fun acc r => acc ++ r.reasons) []
    let all_risk_factors := rule_results.foldl (fun acc r => acc ++ r.risk_factors) []
    let rule_sources := rule_results.map RuleResult.rule_name
    let final_score := if 0 < total_weight then pyInt (total_score / total_weight) else 0
    let final_advice_type :=
      match adviceVotes rule_weights rule_results with
      | [] => AdviceType.wait
      | (k, v) :: rest => firstMaxGo k v rest
    let final_confidence :=
      match confidenceVotes rule_weights rule_results with
      | [] => ConfidenceLevel.medium
      | (k, v) :: rest => firstMaxGo k v rest
    { code := code, name := name,
      advice_type := applyScoreOverride final_score final_advice_type,
      confidence := final_confidence, current_price := current_price,
      reasons := all_reasons, risk_factors := all_risk_factors,
      score := final_score, source := "投资建议引擎",
      rule_sources := rule_sources }

/-- Lookup with default on the model of the indicators dict:
indicators.get(key, default). -/
def dictGet (d : List (String × ℚ)) (k : String) (dflt : ℚ) : ℚ :=
  (d.lookup k).getD dflt

/-- Model of the Python format spec .1f used in the rule messages,
applied to our rational model of floats. -/
def fmt1f (q : ℚ) : String :=
  let n := pyRound (q * 10)
  if n < 0 then "-" ++ toString ((-n) / 10) ++ "." ++ toString ((-n) % 10)
  else toString (n / 10) ++ "." ++ toString (n % 10)

/-- BiasRule.BIAS_THRESHOLD from core/services/advice/rules/bias_rule.py. -/
def BIAS_THRESHOLD : ℚ := 5

/-- BiasRule.evaluate from core/services/advice/rules/bias_rule.py.
asset_data and news_context only feed the unmodelled metadata dict,
so the evaluation is a function of the indicators dict. -/
def BiasRule_evaluate (indicators : List (String × ℚ)) : RuleResult :=
  let bias_ma5 := dictGet indicators "bias_ma5" 0
  if bias_ma5 < 0 then
    if -3 < bias_ma5 then
      { rule_name := "乖离率规则", advice_type := AdviceType.buy,
        confidence := ConfidenceLevel.high, score := 30,
        reasons := ["✅ 价格略低于MA5(" ++ fmt1f bias_ma5 ++ "%)，回踩买点"],
        risk_factors := [] }
    else if -5 < bias_ma5 then
      { rule_name := "乖离率规则", advice_type := AdviceType.buy,
        confidence := ConfidenceLevel.medium, score := 25,
        reasons := ["✅ 价格回踩MA5(" ++ fmt1f bias_ma5 ++ "%)，观察支撑"],
        risk_factors := [] }
    else
      { rule_name := "乖离率规则", advice_type := AdviceType.wait,
        confidence := ConfidenceLevel.medium, score := 10,
        reasons := [],
        risk_factors := ["⚠️ 乖离率过大(" ++ fmt1f bias_ma5 ++ "%)，可能破位"] }
  else if bias_ma5 < 2 then
    { rule_name := "乖离率规则", advice_type := AdviceType.buy,
      confidence := ConfidenceLevel.high, score := 28,
      reasons := ["✅ 价格贴近MA5(" ++ fmt1f bias_ma5 ++ "%)，介入好时机"],
      risk_factors := [] }
  else if bias_ma5 < BIAS_THRESHOLD then
    { rule_name := "乖离率规则", advice_type := AdviceType.buy,
      confidence := ConfidenceLevel.medium, score := 20,
      reasons := ["⚡ 价格略高于MA5(" ++ fmt1f bias_ma5 ++ "%)，可小仓介入"],
      risk_factors := [] }
  else
    { rule_name := "乖离率规则", advice_type := AdviceType.wait,
      confidence := ConfidenceLevel.high, score := 5,
      reasons := [],
      risk_factors := ["❌ 乖离率过高(" ++ fmt1f bias_ma5 ++ "%>5%)，严禁追高！"] }

/-- RiskRule.RISK_KEYWORDS from core/services/advice/rules/risk_rule.py. -/
def RISK_KEYWORDS : List String :=
  ["减持", "减持公告", "股东减持", "高管减持", "处罚", "立案调查", "监管处罚",
   "业绩预亏", "业绩下滑", "业绩变脸", "大额解禁", "限售股解禁", "退市风险",
   "ST", "*ST", "重大利空", "负面消息"]

/-- RiskRule.POSITIVE_KEYWORDS from core/services/advice/rules/risk_rule.py. -/
def POSITIVE_KEYWORDS : List String :=
  ["业绩预增", "业绩超预期", "增持", "回购", "合同", "订单", "中标", "利好", "重大利好"]

/-- needle is a leading segment of hay (on character lists). -/
def leadsChars : List Char → List Char → Bool
  | [], _ => true
  | _ :: _, [] => false
  | c :: cs, d :: ds => c = d && leadsChars cs ds

/-- Python substring membership: needle in hay (on character lists). -/
def subInChars (needle : List Char) : List Char → Bool
  | [] => needle.isEmpty
  | c :: cs => leadsChars needle (c :: cs) || subInChars needle cs

/-- Model of Python str.lower on the character list of a string. -/
def pyLowerChars (s : String) : List Char := s.data.map Char.toLower

/-- keyword in news_context.lower(), as tested by RiskRule.evaluate.
Note the source lowercases only the news text, not the keyword. -/
def kwFound (news : String) (keyword : String) : Bool :=
  subInChars keyword.data (pyLowerChars news)

/-- risk_count computed by the RiskRule.evaluate keyword loop. -/
def riskCount (news : String) : ℕ :=
  (RISK_KEYWORDS.filter (fun k => kwFound news k)).length

/-- positive_count computed by the RiskRule.evaluate keyword loop. -/
def positiveCount (news : String) : ℕ :=
  (POSITIVE_KEYWORDS.filter (fun k => kwFound news k)).length

/-- The no-risk default result of RiskRule.evaluate (base score 10, hold). -/
def RiskRule_baseResult : RuleResult :=
  { rule_name := "风险规则", advice_type := AdviceType.hold,
    confidence := ConfidenceLevel.medium, score := 10,
    reasons := [], risk_factors := [] }

/-- RiskRule.evaluate from core/services/advice/rules/risk_rule.py.
Only the news_context argument is read. An absent or empty news text is
falsy in Python and takes the early no-risk return. -/
def RiskRule_evaluate (news_context : Option String) : RuleResult :=
  match news_context with
  | none => RiskRule_baseResult
  | some news =>
    if news.data.isEmpty then RiskRule_baseResult
    else
      let rc := riskCount news
      let pc := positiveCount news
      let reasons := (POSITIVE_KEYWORDS.filter (fun k => kwFound news k)).map
        (fun k => "✅ 发现利好关键词：" ++ k)
      let risks := (RISK_KEYWORDS.filter (fun k => kwFound news k)).map
        (fun k => "⚠️ 发现风险关键词：" ++ k)
      if 0 < rc then
        { rule_name := "风险规则",
          advice_type := if 2 ≤ rc then AdviceType.sell else AdviceType.wait,
          confidence := if 2 ≤ rc then ConfidenceLevel.high else ConfidenceLevel.medium,
          score := max 0 (10 - (rc : ℤ) * 3),
          reasons := reasons, risk_factors := risks }
      else if 0 < pc then
        { rule_name := "风险规则", advice_type := AdviceType.buy,
          confidence := ConfidenceLevel.medium, score := 15,
          reasons := reasons, risk_factors := risks }
      else
        { rule_name := "风险规则", advice_type := AdviceType.hold,
          confidence := ConfidenceLevel.medium, score := 10,
          reasons := reasons, risk_factors := risks }

/-- pyInt is the identity on integers. -/
theorem pyInt_intCast (n : ℤ) : pyInt (n : ℚ) = n := by
  unfold pyInt
  split <;> simp

/-- The five default-rule results of the documented regression scenario:
Trend 40 buy, Bias 28 buy, Volume 12 hold, Support 5 buy, Risk 10 hold,
all with default weight 1.0. -/
def demoTrend : RuleResult :=
  { rule_name := "趋势规则", advice_type := AdviceType.buy,
    confidence := ConfidenceLevel.medium, score := 40, reasons := [], risk_factors := [] }

/-- Bias rule result of the regression scenario. -/
def demoBias : RuleResult :=
  { rule_name := "乖离率规则", advice_type := AdviceType.buy,
    confidence := ConfidenceLevel.medium, score := 28, reasons := [], risk_factors := [] }

/-- Volume rule result of the regression scenario. -/
def demoVolume : RuleResult :=
  { rule_name := "量能规则", advice_type := AdviceType.hold,
    confidence := ConfidenceLevel.medium, score := 12, reasons := [], risk_factors := [] }

/-- Support rule result of the regression scenario. -/
def demoSupport : RuleResult :=
  { rule_name := "支撑规则", advice_type := AdviceType.buy,
    confidence := ConfidenceLevel.medium, score := 5, reasons := [], risk_factors := [] }

/-- Risk rule result of the regression scenario. -/
def demoRisk : RuleResult :=
  { rule_name := "风险规则", advice_type := AdviceType.hold,
    confidence := ConfidenceLevel.medium, score := 10, reasons := [], risk_factors := [] }

/-- The five results of the regression scenario, in evaluation order. -/
def demoResults : List RuleResult :=
  [demoTrend, demoBias, demoVolume, demoSupport, demoRisk]

/-- C1: in the documented five-rule scenario the aggregate score is 19, but the
final advice is not the claimed wait: 19 falls below 35, so the low-score
override applies instead of the 35-50 wait override. -/
theorem C1_counterexample :
    (RuleAggregator_aggregate demoResults "000001" "示例" 10 none).score = 19 ∧
    (RuleAggregator_aggregate demoResults "000001" "示例" 10 none).advice_type ≠
      AdviceType.wait := by
  refine ⟨?_, ?_⟩ <;>
    norm_num [RuleAggregator_aggregate, demoResults, demoTrend, demoBias, demoVolume,
      demoSupport, demoRisk, totalScore, totalWeight, adviceVotes, confidenceVotes,
      bumpVote, firstMaxGo, weightOf, pyInt, applyScoreOverride]
  decide

/-- C1 (amended): in the five-rule scenario the aggregate score is
(40+28+12+5+10)/5 = 19, and since 19 < 35 and the vote winner buy is not a
sell advice, the score-driven override forces the final advice to sell. -/
theorem C1_amended_sell_override :
    (RuleAggregator_aggregate demoResults "000001" "示例" 10 none).score = 19 ∧
    (RuleAggregator_aggregate demoResults "000001" "示例" 10 none).advice_type =
      AdviceType.sell := by
  refine ⟨?_, ?_⟩ <;>
    norm_num [RuleAggregator_aggregate, demoResults, demoTrend, demoBias, demoVolume,
      demoSupport, demoRisk, totalScore, totalWeight, adviceVotes, confidenceVotes,
      bumpVote, firstMaxGo, weightOf, pyInt, applyScoreOverride]
  decide

/-- A rule result with integer score 1, used to exercise the aggregator. -/
def scoreOneResult : RuleResult :=
  { rule_name := "规则甲", advice_type := AdviceType.buy,
    confidence := ConfidenceLevel.medium, score := 1, reasons := [], risk_factors := [] }

/-- A rule result with integer score 2, used to exercise the aggregator. -/
def scoreTwoResult : RuleResult :=
  { rule_name := "规则乙", advice_type := AdviceType.buy,
    confidence := ConfidenceLevel.medium, score := 2, reasons := [], risk_factors := [] }

/-- C2: the aggregator does not round the weighted average to the nearest
integer: two unit-weight rules with scores 1 and 2 average to 3/2, which the
code truncates to 1 while rounding would give 2. -/
theorem C2_counterexample :
    (RuleAggregator_aggregate [scoreOneResult, scoreTwoResult] "c" "n" 0 none).score = 1 ∧
    pyRound (totalScore none [scoreOneResult, scoreTwoResult] /
      totalWeight none [scoreOneResult, scoreTwoResult]) = 2 := by
  constructor
  · norm_num [RuleAggregator_aggregate, scoreOneResult, scoreTwoResult, totalScore,
      totalWeight, weightOf, pyInt]
  · norm_num [totalScore, totalWeight, weightOf, scoreOneResult, scoreTwoResult, pyRound]

/-- C2 (amended): for every non-empty rule_results list the final score is the
truncation toward zero (Python int()) of total_score/total_weight when
total_weight is positive, and 0 otherwise; for a single rule of integer score
s and positive weight w the final score equals s exactly. -/
theorem C2_amended_trunc :
    (∀ (rs : List RuleResult) (code name : String) (p : ℚ)
        (rw : Option (List (String × ℚ))), rs ≠ [] →
      (RuleAggregator_aggregate rs code name p rw).score =
        (if 0 < totalWeight rw rs then pyInt (totalScore rw rs / totalWeight rw rs)
         else 0)) ∧
    (∀ (r : RuleResult) (code name : String) (p w : ℚ), 0 < w →
      (RuleAggregator_aggregate [r] code name p (some [(r.rule_name, w)])).score =
        r.score) := by
  constructor
  · intro rs code name p rw hne
    cases rs with
    | nil => exact absurd rfl hne
    | cons a l => simp [RuleAggregator_aggregate]
  · intro r code name p w hw
    have hw0 : w ≠ 0 := ne_of_gt hw
    simp [RuleAggregator_aggregate, totalScore, totalWeight, weightOf, List.lookup, hw,
      mul_div_assoc, div_self hw0, pyInt_intCast]

/-- Witness for C2 (amended) at concrete inputs. -/
theorem C2_amended_trunc_witness :
    ((RuleAggregator_aggregate [scoreOneResult] "c" "n" 0 none).score =
      (if 0 < totalWeight none [scoreOneResult] then
        pyInt (totalScore none [scoreOneResult] / totalWeight none [scoreOneResult])
       else 0)) ∧
    ((RuleAggregator_aggregate [scoreTwoResult] "c" "n" 0
        (some [(scoreTwoResult.rule_name, 2)])).score = scoreTwoResult.score) :=
  ⟨C2_amended_trunc.1 [scoreOneResult] "c" "n" 0 none (by simp),
   C2_amended_trunc.2 scoreTwoResult "c" "n" 0 2 (by norm_num)⟩

/-- C4: the risk-keyword scan is not case-insensitive for the latin keywords.
The news text ST contains the listed risk keyword ST verbatim (and ST is in
the keyword list), yet the scan counts no risk keyword at all, because the
code lowercases the news to st while leaving the keyword uppercase; the
evaluation therefore returns the no-risk base result. -/
theorem C4_keyword_case_bug :
    subInChars "ST".data "ST".data = true ∧
    "ST" ∈ RISK_KEYWORDS ∧
    riskCount "ST" = 0 ∧
    RiskRule_evaluate (some "ST") = RiskRule_baseResult := by
  decide

/-- C8: whenever the bias_ma5 indicator is at least 5.0, BiasRule.evaluate
returns wait with high confidence, score 5 and the single no-chase risk flag;
in particular the advice is neither buy nor strong-buy. -/
theorem C8_bias_no_chase (indicators : List (String × ℚ))
    (h : 5 ≤ dictGet indicators "bias_ma5" 0) :
    (BiasRule_evaluate indicators).advice_type = AdviceType.wait ∧
    (BiasRule_evaluate indicators).confidence = ConfidenceLevel.high ∧
    (BiasRule_evaluate indicators).score = 5 ∧
    (BiasRule_evaluate indicators).risk_factors =
      ["❌ 乖离率过高(" ++ fmt1f (dictGet indicators "bias_ma5" 0) ++ "%>5%)，严禁追高！"] ∧
    (BiasRule_evaluate indicators).advice_type ≠ AdviceType.buy ∧
    (BiasRule_evaluate indicators).advice_type ≠ AdviceType.strong_buy := by
  have h0 : ¬ dictGet indicators "bias_ma5" 0 < 0 := by linarith
  have h2 : ¬ dictGet indicators "bias_ma5" 0 < 2 := by linarith
  have h5 : ¬ dictGet indicators "bias_ma5" 0 < BIAS_THRESHOLD := by
    rw [BIAS_THRESHOLD]
    linarith
  simp [BiasRule_evaluate, h0, h2, h5]

/-- Witness for C8 at bias_ma5 equal to 6. -/
theorem C8_bias_no_chase_witness :
    (BiasRule_evaluate [("bias_ma5", 6)]).advice_type = AdviceType.wait ∧
    (BiasRule_evaluate [("bias_ma5", 6)]).confidence = ConfidenceLevel.high ∧
    (BiasRule_evaluate [("bias_ma5", 6)]).score = 5 ∧
    (BiasRule_evaluate [("bias_ma5", 6)]).risk_factors =
      ["❌ 乖离率过高(" ++ fmt1f (dictGet [("bias_ma5", 6)] "bias_ma5" 0) ++
        "%>5%)，严禁追高！"] ∧
    (BiasRule_evaluate [("bias_ma5", 6)]).advice_type ≠ AdviceType.buy ∧
    (BiasRule_evaluate [("bias_ma5", 6)]).advice_type ≠ AdviceType.strong_buy :=
  C8_bias_no_chase [("bias_ma5", 6)] (by norm_num [dictGet, List.lookup])

/-- SignalType enum from core/domain/signal.py. -/
inductive SignalType
  | buy
  | sell
  | hold
  | close
  deriving DecidableEq, Repr

/-- TradingSignal entity from core/domain/signal.py, restricted to the fields
the backtest executor and engine read (code, signal_type, date) plus the
signal price; source, timestamp and the optional fields are not read. -/
structure TradingSignal where
  code : String
  name : String
  signal_type : SignalType
  price : ℚ
  date : ℤ
  deriving DecidableEq, Repr

/-- Position dataclass from core/services/backtest/executor.py. -/
structure Position where
  code : String
  quantity : ℤ
  avg_price : ℚ
  entry_date : ℤ
  entry_signal : TradingSignal
  deriving DecidableEq, Repr

/-- Trade dataclass from core/services/backtest/executor.py. -/
structure Trade where
  code : String
  signal : TradingSignal
  quantity : ℤ
  price : ℚ
  amount : ℚ
  date : ℤ
  type : String
  deriving DecidableEq, Repr

/-- The mutable state of a BacktestExecutor: initial and current capital, the
insertion-ordered positions dict and the trade log. -/
structure ExecState where
  initial_capital : ℚ
  current_capital : ℚ
  positions : List (String × Position)
  trades : List Trade
  deriving DecidableEq, Repr

/-- BacktestExecutor.init: fresh state with the given initial capital. -/
def ExecState.init (cap : ℚ) : ExecState :=
  { initial_capital := cap, current_capital := cap, positions := [], trades := [] }

/-- In-place update (or append) of one key of the positions dict. -/
def setPos (ps : List (String × Position)) (code : String) (p : Position) :
    List (String × Position) :=
  match ps with
  | [] => [(code, p)]
  | (c, q) :: rest => if c = code then (c, p) :: rest else (c, q) :: setPos rest code p

/-- Deletion of one key of the positions dict. -/
def delPos (ps : List (String × Position)) (code : String) :
    List (String × Position) :=
  match ps with
  | [] => []
  | (c, q) :: rest => if c = code then rest else (c, q) :: delPos rest code

/-- BacktestExecutor._execute_buy. -/
def BacktestExecutor_executeBuy (s : ExecState) (signal : TradingSignal) (price : ℚ)
    (available_capital : ℚ) : Option Trade × ExecState :=
  let use_capital := available_capital * 0.8
  let quantity := pyInt (use_capital / price / 100) * 100
  if quantity < 100 then (none, s)
  else
    let amount := (quantity : ℚ) * price
    let trade : Trade :=
      { code := signal.code, signal := signal, quantity := quantity, price := price,
        amount := amount, date := signal.date, type := "buy" }
    let positions2 :=
      match s.positions.lookup signal.code with
      | some pos =>
        let total_cost := pos.avg_price * (pos.quantity : ℚ) + amount
        let q2 := pos.quantity + quantity
        setPos s.positions signal.code
          { pos with quantity := q2, avg_price := total_cost / (q2 : ℚ) }
      | none =>
        setPos s.positions signal.code
          { code := signal.code, quantity := quantity, avg_price := price,
            entry_date := signal.date, entry_signal := signal }
    (some trade,
      { s with current_capital := s.current_capital - amount,
               positions := positions2, trades := s.trades ++ [trade] })

/-- BacktestExecutor._execute_sell (also _execute_close, which delegates). -/
def BacktestExecutor_executeSell (s : ExecState) (signal : TradingSignal) (price : ℚ) :
    Option Trade × ExecState :=
  match s.positions.lookup signal.code with
  | none => (none, s)
  | some pos =>
    let quantity := pos.quantity
    let amount := (quantity : ℚ) * price
    let trade : Trade :=
      { code := signal.code, signal := signal, quantity := quantity, price := price,
        amount := amount, date := signal.date, type := "sell" }
    (some trade,
      { s with current_capital := s.current_capital + amount,
               positions := delPos s.positions signal.code,
               trades := s.trades ++ [trade] })

/-- BacktestExecutor.execute_signal. The optional available_capital defaults
to the current capital. -/
def BacktestExecutor_executeSignal (s : ExecState) (signal : TradingSignal)
    (current_price : ℚ) (available_capital : Option ℚ) : Option Trade × ExecState :=
  let ac := available_capital.getD s.current_capital
  match signal.signal_type with
  | SignalType.buy => BacktestExecutor_executeBuy s signal current_price ac
  | SignalType.sell => BacktestExecutor_executeSell s signal current_price
  | SignalType.close => BacktestExecutor_executeSell s signal current_price
  | SignalType.hold => (none, s)

/-- BacktestExecutor.get_total_equity: cash plus market value of the open
positions at the supplied prices (positions without a price are skipped). -/
def BacktestExecutor_getTotalEquity (s : ExecState)
    (current_prices : List (String × ℚ)) : ℚ :=
  s.positions.foldl
    (fun eqy cp =>
      match current_prices.lookup cp.1 with
      | some p => eqy + (cp.2.quantity : ℚ) * p
      | none => eqy)
    s.current_capital

/-- BacktestExecutor.reset. -/
def BacktestExecutor_reset (s : ExecState) : ExecState :=
  { s with current_capital := s.initial_capital, positions := [], trades := [] }

/-- A sequence of execute_signal calls, each given a signal, a price and an
optional available capital, threaded through the executor state. -/
def runSignals (s : ExecState) (inputs : List (TradingSignal × ℚ × Option ℚ)) :
    ExecState :=
  inputs.foldl (fun st inp => (BacktestExecutor_executeSignal st inp.1 inp.2.1 inp.2.2).2) s

/-- initial_capital is never modified by a buy execution. -/
theorem execBuy_initial_capital (s : ExecState) (sig : TradingSignal) (p c : ℚ) :
    ((BacktestExecutor_executeBuy s sig p c).2).initial_capital =
      s.initial_capital := by
  simp only [BacktestExecutor_executeBuy]
  split <;> rfl

/-- initial_capital is never modified by a sell execution. -/
theorem execSell_initial_capital (s : ExecState) (sig : TradingSignal) (p : ℚ) :
    ((BacktestExecutor_executeSell s sig p).2).initial_capital =
      s.initial_capital := by
  simp only [BacktestExecutor_executeSell]
  split <;> rfl

/-- initial_capital is never modified by execute_signal. -/
theorem execSignal_initial_capital (s : ExecState) (sig : TradingSignal) (p : ℚ)
    (ac : Option ℚ) :
    ((BacktestExecutor_executeSignal s sig p ac).2).initial_capital =
      s.initial_capital := by
  rw [BacktestExecutor_executeSignal]
  cases sig.signal_type
  case buy => exact execBuy_initial_capital s sig p _
  case sell => exact execSell_initial_capital s sig p
  case close => exact execSell_initial_capital s sig p
  case hold => rfl

/-- initial_capital is invariant under any sequence of execute_signal calls. -/
theorem runSignals_initial_capital (inputs : List (TradingSignal × ℚ × Option ℚ)) :
    ∀ s : ExecState, (runSignals s inputs).initial_capital = s.initial_capital := by
  induction inputs with
  | nil => intro s; rfl
  | cons a l ih =>
    intro s
    rw [runSignals, List.foldl_cons]
    have h2 := ih ((BacktestExecutor_executeSignal s a.1 a.2.1 a.2.2).2)
    rw [runSignals] at h2
    rw [h2, execSignal_initial_capital]

/-- C6: on a buy signal with positive price, the executed quantity is
floor(usable capital times 0.8 over price over 100) times 100, a multiple of
100; below one lot of 100 no trade happens and the state is unchanged,
otherwise the cash decreases by exactly quantity times price and one buy
trade is appended to the log. -/
theorem C6_buy_round_lot (s : ExecState) (sig : TradingSignal) (p : ℚ)
    (ac : Option ℚ) (hb : sig.signal_type = SignalType.buy) (hp : 0 < p) :
    (⌊(ac.getD s.current_capital) * 0.8 / p / 100⌋ * 100) % 100 = 0 ∧
    (⌊(ac.getD s.current_capital) * 0.8 / p / 100⌋ * 100 < 100 →
      BacktestExecutor_executeSignal s sig p ac = (none, s)) ∧
    (100 ≤ ⌊(ac.getD s.current_capital) * 0.8 / p / 100⌋ * 100 →
      ∃ t, (BacktestExecutor_executeSignal s sig p ac).1 = some t ∧
        t.quantity = ⌊(ac.getD s.current_capital) * 0.8 / p / 100⌋ * 100 ∧
        t.type = "buy" ∧
        (BacktestExecutor_executeSignal s sig p ac).2.current_capital =
          s.current_capital -
            (⌊(ac.getD s.current_capital) * 0.8 / p / 100⌋ * 100 : ℤ) * p ∧
        (BacktestExecutor_executeSignal s sig p ac).2.trades = s.trades ++ [t]) := by
  set c := ac.getD s.current_capital with hc
  set x := c * 0.8 / p / 100 with hx
  have hq : BacktestExecutor_executeSignal s sig p ac =
      BacktestExecutor_executeBuy s sig p c := by
    simp [BacktestExecutor_executeSignal, hb]
  refine ⟨Int.mul_emod_left _ _ |>.symm ▸ rfl, ?_, ?_⟩
  · intro hlt
    have hf : ⌊x⌋ ≤ 0 := by omega
    have hql : pyInt x * 100 < 100 := by
      rcases lt_or_le x 0 with hneg | hpos
      · have he : pyInt x = ⌈x⌉ := by simp [pyInt, hneg]
        have hcl : ⌈x⌉ ≤ 0 := Int.ceil_le.mpr (by exact_mod_cast le_of_lt hneg)
        omega
      · have he : pyInt x = ⌊x⌋ := by simp [pyInt, not_lt.mpr hpos]
        omega
    rw [hq]
    rw [BacktestExecutor_executeBuy]
    simp only [← hx, if_pos hql]
  · intro hge
    have hf1 : 1 ≤ ⌊x⌋ := by omega
    have hx0 : (0:ℚ) ≤ x := le_trans (by norm_num) (Int.le_floor.mp hf1)
    have he : pyInt x = ⌊x⌋ := by simp [pyInt, not_lt.mpr hx0]
    rw [hq, BacktestExecutor_executeBuy]
    simp only [← hx, he, if_neg (not_lt.mpr hge)]
    refine ⟨{ code := sig.code, signal := sig, quantity := ⌊x⌋ * 100, price := p,
              amount := (⌊x⌋ : ℚ) * 100 * p, date := sig.date, type := "buy" }, ?_⟩
    simp

/-- A concrete buy signal used by the executor witnesses. -/
def buySampleSignal : TradingSignal :=
  { code := "600000", name := "样本", signal_type := SignalType.buy, price := 10,
    date := 0 }

/-- Witness for C6: with cash 100000 and price 10 the buy executes 8000
shares, a multiple of 100, and the cash falls by 80000. -/
theorem C6_buy_round_lot_witness :
    (⌊((none : Option ℚ).getD (ExecState.init 100000).current_capital) * 0.8 / 10 /
        100⌋ * 100) % 100 = 0 ∧
    (⌊((none : Option ℚ).getD (ExecState.init 100000).current_capital) * 0.8 / 10 /
        100⌋ * 100 < 100 →
      BacktestExecutor_executeSignal (ExecState.init 100000) buySampleSignal 10 none =
        (none, ExecState.init 100000)) ∧
    (100 ≤ ⌊((none : Option ℚ).getD (ExecState.init 100000).current_capital) * 0.8 /
        10 / 100⌋ * 100 →
      ∃ t, (BacktestExecutor_executeSignal (ExecState.init 100000) buySampleSignal 10
          none).1 = some t ∧
        t.quantity = ⌊((none : Option ℚ).getD (ExecState.init 100000).current_capital) *
          0.8 / 10 / 100⌋ * 100 ∧
        t.type = "buy" ∧
        (BacktestExecutor_executeSignal (ExecState.init 100000) buySampleSignal 10
            none).2.current_capital =
          (ExecState.init 100000).current_capital -
            (⌊((none : Option ℚ).getD (ExecState.init 100000).current_capital) * 0.8 /
              10 / 100⌋ * 100 : ℤ) * 10 ∧
        (BacktestExecutor_executeSignal (ExecState.init 100000) buySampleSignal 10
            none).2.trades = (ExecState.init 100000).trades ++ [t]) :=
  C6_buy_round_lot (ExecState.init 100000) buySampleSignal 10 none rfl (by norm_num)

/-- C7: a sell or close signal on a code with no open position returns no
trade and leaves the executor state (cash, positions, trades) unchanged. -/
theorem C7_sell_without_position (s : ExecState) (sig : TradingSignal) (p : ℚ)
    (ac : Option ℚ)
    (hty : sig.signal_type = SignalType.sell ∨ sig.signal_type = SignalType.close)
    (hnp : s.positions.lookup sig.code = none) :
    BacktestExecutor_executeSignal s sig p ac = (none, s) := by
  rcases hty with h | h <;>
    simp [BacktestExecutor_executeSignal, h, BacktestExecutor_executeSell, hnp]

/-- A concrete sell signal used by the executor witnesses. -/
def sellSampleSignal : TradingSignal :=
  { code := "600000", name := "样本", signal_type := SignalType.sell, price := 5,
    date := 0 }

/-- Witness for C7 on a fresh executor with no positions. -/
theorem C7_sell_without_position_witness :
    BacktestExecutor_executeSignal (ExecState.init 1000) sellSampleSignal 5 none =
      (none, ExecState.init 1000) :=
  C7_sell_without_position (ExecState.init 1000) sellSampleSignal 5 none
    (Or.inl rfl) rfl

/-- C9: after any sequence of execute_signal calls, reset() restores the cash
to the initial capital and empties the positions dict and the trade log,
giving back exactly the fresh executor state. -/
theorem C9_reset_round_trip (cap : ℚ) (inputs : List (TradingSignal × ℚ × Option ℚ)) :
    BacktestExecutor_reset (runSignals (ExecState.init cap) inputs) =
      ExecState.init cap := by
  rw [BacktestExecutor_reset, runSignals_initial_capital]
  rfl

/-- Division as Python performs it: raises ZeroDivisionError (modelled as an
Except error) on a zero denominator. -/
def qdiv (a b : ℚ) : Except String ℚ :=
  if b = 0 then Except.error "ZeroDivisionError" else Except.ok (a / b)

/-- BacktestResult dataclass from core/services/backtest/executor.py.
daily_equity entries are dicts with a date string and an equity float. -/
structure EquitySnap where
  date : String
  equity : ℚ
  deriving DecidableEq, Repr

/-- BacktestResult dataclass (dates as integer day ordinals). -/
structure BacktestResultM where
  start_date : ℤ
  end_date : ℤ
  initial_capital : ℚ
  final_capital : ℚ
  total_return : ℚ
  trades : List Trade
  positions : List Position
  daily_equity : List EquitySnap
  deriving DecidableEq, Repr

/-- BacktestMetrics dataclass from core/services/backtest/metrics.py
(the sharpe field is the sharpe_ratio field of the source). -/
structure BacktestMetrics where
  total_return : ℚ
  annual_return : ℚ
  sharpe : ℚ
  max_drawdown : ℚ
  win_rate : ℚ
  profit_factor : ℚ
  total_trades : ℕ
  winning_trades : ℕ
  losing_trades : ℕ
  deriving DecidableEq, Repr

/-- The loop of MetricsCalculator._calculate_max_drawdown, carrying the
running peak and the running maximal drawdown. The division by the running
peak raises (errors) when the peak is zero. -/
def mddGo (max_equity max_drawdown : ℚ) : List ℚ → Except String ℚ
  | [] => Except.ok max_drawdown
  | e :: rest =>
    let m := if max_equity < e then e else max_equity
    if m = 0 then Except.error "ZeroDivisionError"
    else
      let dd := (m - e) / m * 100
      mddGo m (if max_drawdown < dd then dd else max_drawdown) rest

/-- MetricsCalculator._calculate_max_drawdown: 0 on an empty list, otherwise
the loop starting from the first equity value as the peak. -/
def pyMaxDrawdown : List ℚ → Except String ℚ
  | [] => Except.ok 0
  | e :: rest => mddGo e 0 (e :: rest)

/-- The daily returns loop of _calculate_sharpe_ratio: consecutive relative
changes, skipping steps whose base is not positive. -/
def dailyReturns : List ℚ → List ℚ
  | [] => []
  | [_] => []
  | a :: b :: rest =>
    (if 0 < a then [(b - a) / a] else []) ++ dailyReturns (b :: rest)

/-- MetricsCalculator._calculate_sharpe_ratio, parameterized by the real
square root (math.sqrt), which is not rational-valued. -/
def MetricsCalculator_sharpeRatio (sqrtf : ℚ → ℚ) (daily_equity : List ℚ) : ℚ :=
  if daily_equity.length < 2 then 0
  else
    let returns := dailyReturns daily_equity
    if returns.isEmpty then 0
    else
      let avg_return := returns.sum / (returns.length : ℚ)
      let variance := (returns.map (fun r => (r - avg_return) ^ 2)).sum / (returns.length : ℚ)
      let std_dev := if 0 < variance then sqrtf variance else 0
      if 0 < std_dev then avg_return / std_dev * sqrtf 252 else 0

/-- The stock codes of a trade list in first-appearance order: the keys of
the stock_trades dict built by MetricsCalculator.calculate. -/
def tradeCodes (trades : List Trade) : List String :=
  trades.foldl (fun acc t => if acc.contains t.code then acc else acc ++ [t.code]) []

/-- Sum of the amounts of the trades of one code and one side. Grouping the
trades by code and summing one side equals filtering the full list. -/
def sumAmount (trades : List Trade) (code : String) (side : String) : ℚ :=
  ((trades.filter (fun t => t.code == code && t.type == side)).map Trade.amount).sum

/-- The per-stock win/loss statistics loop of MetricsCalculator.calculate:
(win_count, lose_count, total_profit, total_loss). -/
def winLossStats (trades : List Trade) : ℕ × ℕ × ℚ × ℚ :=
  (tradeCodes trades).foldl
    (fun acc code =>
      let buy_amount := sumAmount trades code "buy"
      let sell_amount := sumAmount trades code "sell"
      if 0 < sell_amount then
        let profit := sell_amount - buy_amount
        if 0 < profit then (acc.1 + 1, acc.2.1, acc.2.2.1 + profit, acc.2.2.2)
        else (acc.1, acc.2.1 + 1, acc.2.2.1, acc.2.2.2 + |profit|)
      else acc)
    (0, 0, 0, 0)

/-- MetricsCalculator.calculate, parameterized by the real power function
(Python ** on floats) and math.sqrt, which are not rational-valued. The
divisions the source leaves unguarded go through qdiv and so surface
ZeroDivisionError as an Except error. -/
def MetricsCalculator_calculate (powf : ℚ → ℚ → ℚ) (sqrtf : ℚ → ℚ)
    (result : BacktestResultM) (daily_equity : List ℚ) :
    Except String BacktestMetrics := do
  let tr0 ← qdiv (result.final_capital - result.initial_capital) result.initial_capital
  let total_return := tr0 * 100
  let days := result.end_date - result.start_date
  let annual_return ←
    if 0 < days then do
      let base ← qdiv result.final_capital result.initial_capital
      pure ((powf base (365 / (days : ℚ)) - 1) * 100)
    else pure (0 : ℚ)
  let max_drawdown ← pyMaxDrawdown daily_equity
  let sharpe := MetricsCalculator_sharpeRatio sqrtf daily_equity
  let stats := winLossStats result.trades
  let total_trades := stats.1 + stats.2.1
  let win_rate := if 0 < total_trades then ((stats.1 : ℚ) / (total_trades : ℚ)) * 100 else 0
  let profit_factor := if 0 < stats.2.2.2 then stats.2.2.1 / stats.2.2.2 else 0
  pure
    { total_return := total_return, annual_return := annual_return, sharpe := sharpe,
      max_drawdown := max_drawdown, win_rate := win_rate,
      profit_factor := profit_factor, total_trades := total_trades,
      winning_trades := stats.1, losing_trades := stats.2.1 }

/-- A backtest result with zero initial capital. -/
def zeroCapitalResult : BacktestResultM :=
  { start_date := 0, end_date := 10, initial_capital := 0, final_capital := 1000,
    total_return := 0, trades := [], positions := [], daily_equity := [] }

/-- C3: MetricsCalculator.calculate divides by initial_capital with no guard,
so a result with initial_capital = 0 raises ZeroDivisionError instead of
degrading to a fallback; likewise the max-drawdown loop divides by the
running peak, so an equity list whose peak is 0 raises. The claimed
total safety of the divisions fails on both counts. -/
theorem C3_zero_division_bug :
    MetricsCalculator_calculate (fun _ _ => 1) (fun _ => 0) zeroCapitalResult [1000] =
      Except.error "ZeroDivisionError" ∧
    pyMaxDrawdown [0] = Except.error "ZeroDivisionError" := by
  constructor
  · rfl
  · norm_num [pyMaxDrawdown, mddGo]

/-- C5: the max drawdown is not bounded by 100 on arbitrary equity series:
the series 1, -1 has a peak of 1 and a trough of -1, giving a drawdown of
200 percent. -/
theorem C5_counterexample :
    pyMaxDrawdown [1, -1] = Except.ok 200 ∧ ¬ (200 : ℚ) ≤ 100 := by
  constructor
  · norm_num [pyMaxDrawdown, mddGo]
  · norm_num

/-- Invariant of the max-drawdown loop: with a positive running peak, a
running drawdown in 0..100 and positive equity values, the loop succeeds and
stays in 0..100. -/
theorem mddGo_bounds (l : List ℚ) : ∀ me md : ℚ, 0 < me → 0 ≤ md → md ≤ 100 →
    (∀ x ∈ l, 0 < x) →
    ∃ d, mddGo me md l = Except.ok d ∧ 0 ≤ d ∧ d ≤ 100 := by
  induction l with
  | nil =>
    intro me md hme h0 h100 hpos
    exact ⟨md, rfl, h0, h100⟩
  | cons e rest ih =>
    intro me md hme h0 h100 hpos
    have hepos : 0 < e := hpos e (List.mem_cons_self e rest)
    rw [mddGo]
    set m := if me < e then e else me with hm
    have hmpos : 0 < m := by
      rw [hm]
      split
      · exact hepos
      · exact hme
    have hem : e ≤ m := by
      rw [hm]
      split
      · exact le_refl e
      · exact le_of_not_lt (by assumption)
    rw [if_neg (ne_of_gt hmpos)]
    set dd := (m - e) / m * 100 with hdd
    have hdd0 : 0 ≤ dd := by
      rw [hdd]
      have hq : (0:ℚ) ≤ (m - e) / m := div_nonneg (by linarith) hmpos.le
      linarith
    have hdd100 : dd ≤ 100 := by
      rw [hdd]
      have h1 : (m - e) / m ≤ 1 := by
        rw [div_le_one hmpos]
        linarith
      linarith
    have hmd2a : 0 ≤ (if md < dd then dd else md) := by
      split
      · exact hdd0
      · exact h0
    have hmd2b : (if md < dd then dd else md) ≤ 100 := by
      split
      · exact hdd100
      · exact h100
    exact ih m _ hmpos hmd2a hmd2b (fun x hx => hpos x (List.mem_cons_of_mem e hx))

/-- On a strictly increasing tail above a positive peak, the max-drawdown
loop never grows the running drawdown. -/
theorem mddGo_chain (l : List ℚ) : ∀ me : ℚ, 0 < me → List.Chain' (· < ·) (me :: l) →
    mddGo me 0 l = Except.ok 0 := by
  induction l with
  | nil =>
    intro me hme hch
    rfl
  | cons e rest ih =>
    intro me hme hch
    rw [List.chain'_cons] at hch
    have hlt : me < e := hch.1
    have hepos : 0 < e := hme.trans hlt
    rw [mddGo]
    rw [if_pos hlt, if_neg (ne_of_gt hepos)]
    have hz : (e - e) / e * 100 = 0 := by simp
    rw [hz]
    simp only [lt_irrefl, if_false]
    exact ih e hepos hch.2

/-- C5 (amended): for every equity series of positive values the max
drawdown computation succeeds and returns a value between 0 and 100, and on
a strictly increasing series it returns exactly 0. -/
theorem C5_amended_drawdown_bounds (l : List ℚ) (hpos : ∀ x ∈ l, 0 < x) :
    ∃ d, pyMaxDrawdown l = Except.ok d ∧ 0 ≤ d ∧ d ≤ 100 ∧
      (List.Chain' (· < ·) l → d = 0) := by
  cases l with
  | nil => exact ⟨0, rfl, le_refl 0, by norm_num, fun _ => rfl⟩
  | cons e rest =>
    have hepos : 0 < e := hpos e (List.mem_cons_self e rest)
    obtain ⟨d, hd, h0, h100⟩ :=
      mddGo_bounds (e :: rest) e 0 hepos (le_refl 0) (by norm_num) hpos
    refine ⟨d, hd, h0, h100, ?_⟩
    intro hch
    have h1 : mddGo e 0 (e :: rest) = mddGo e 0 rest := by
      rw [mddGo]
      rw [if_neg (lt_irrefl e), if_neg (ne_of_gt hepos)]
      have hz : (e - e) / e * 100 = 0 := by simp
      rw [hz]
      simp only [lt_irrefl, if_false]
    rw [h1, mddGo_chain rest e hepos hch] at hd
    injection hd with hd2
    exact hd2.symm

/-- Witness for C5 (amended) on the positive increasing series 1, 2. -/
theorem C5_amended_drawdown_bounds_witness :
    ∃ d, pyMaxDrawdown [1, 2] = Except.ok d ∧ 0 ≤ d ∧ d ≤ 100 ∧
      (List.Chain' (· < ·) [(1:ℚ), 2] → d = 0) :=
  C5_amended_drawdown_bounds [1, 2] (by norm_num)

/-- Stable insertion into a date-sorted signal list: the new signal goes
after all signals with an earlier or equal date. -/
def insertByDate (sig : TradingSignal) : List TradingSignal → List TradingSignal
  | [] => [sig]
  | s2 :: rest =>
    if sig.date < s2.date then sig :: s2 :: rest else s2 :: insertByDate sig rest

/-- Python sorted(signals, key date): a stable ascending sort by date. -/
def sortSignals (signals : List TradingSignal) : List TradingSignal :=
  signals.foldl (fun acc s => insertByDate s acc) []

/-- One iteration of the signal loop of BacktestEngine.run_backtest: signals
outside the date window, without price data for their day, or without a
price for their code are skipped; otherwise the signal is executed and the
day's total equity is appended to the equity curve. -/
def engineStep (start_date end_date : ℤ) (price_data : List (ℤ × List (String × ℚ)))
    (acc : ExecState × List ℚ) (sig : TradingSignal) : ExecState × List ℚ :=
  if sig.date < start_date ∨ end_date < sig.date then acc
  else
    match price_data.lookup sig.date with
    | none => acc
    | some prices =>
      match prices.lookup sig.code with
      | none => acc
      | some current_price =>
        let ex2 := (BacktestExecutor_executeSignal acc.1 sig current_price none).2
        (ex2, acc.2 ++ [BacktestExecutor_getTotalEquity ex2 prices])

/-- BacktestEngine.run_backtest from core/services/backtest/engine.py: reset
executor, sort signals by date, run the signal loop, compute the final
equity, and build the BacktestResult. The total_return division raises
(errors) when the initial capital is zero. Every daily_equity snapshot is
stamped with start_date.isoformat(). -/
def BacktestEngine_runBacktest (initial_capital : ℚ) (signals : List TradingSignal)
    (price_data : List (ℤ × List (String × ℚ))) (start_date end_date : ℤ) :
    Except String BacktestResultM :=
  let sorted_signals := sortSignals signals
  let out := sorted_signals.foldl (engineStep start_date end_date price_data)
    (ExecState.init initial_capital, [initial_capital])
  let final_equity :=
    match price_data.lookup end_date with
    | some final_prices => BacktestExecutor_getTotalEquity out.1 final_prices
    | none => out.1.current_capital
  match qdiv (final_equity - initial_capital) initial_capital with
  | Except.error e => Except.error e
  | Except.ok tr0 =>
    Except.ok
      { start_date := start_date, end_date := end_date,
        initial_capital := initial_capital, final_capital := final_equity,
        total_return := tr0 * 100, trades := out.1.trades,
        positions := out.1.positions.map Prod.snd,
        daily_equity := out.2.map (fun e => { date := dateIso start_date, equity := e }) }

/-- C10: whenever run_backtest returns a result, every snapshot of its
daily_equity curve carries the same date string, start_date.isoformat(),
regardless of the day the equity value was sampled. -/
theorem C10_daily_equity_single_date (initial_capital : ℚ)
    (signals : List TradingSignal) (price_data : List (ℤ × List (String × ℚ)))
    (start_date end_date : ℤ) (r : BacktestResultM)
    (h : BacktestEngine_runBacktest initial_capital signals price_data start_date
      end_date = Except.ok r) :
    r.daily_equity.map EquitySnap.date =
      List.replicate r.daily_equity.length (dateIso start_date) := by
  rw [BacktestEngine_runBacktest] at h
  set out := (sortSignals signals).foldl (engineStep start_date end_date price_data)
    (ExecState.init initial_capital, [initial_capital]) with hout
  set final_equity :=
    (match price_data.lookup end_date with
     | some final_prices => BacktestExecutor_getTotalEquity out.1 final_prices
     | none => out.1.current_capital) with hfe
  rcases hq : qdiv (final_equity - initial_capital) initial_capital with _ | v
  · rw [hq] at h
    exact absurd h (by simp)
  · rw [hq] at h
    rw [Except.ok.injEq] at h
    subst h
    simp only [List.map_map, List.length_map]
    have hcomp : (EquitySnap.date ∘ fun e => EquitySnap.mk (dateIso start_date) e) =
        fun _ => dateIso start_date := rfl
    rw [hcomp, List.map_const']

/-- The result of the trivial witness run: no signals, capital 1000. -/
def trivialRunResult : BacktestResultM :=
  { start_date := 0, end_date := 1, initial_capital := 1000, final_capital := 1000,
    total_return := 0, trades := [], positions := [],
    daily_equity := [{ date := dateIso 0, equity := 1000 }] }

/-- Witness for C10 on a run with no signals and no price data. -/
theorem C10_daily_equity_single_date_witness :
    trivialRunResult.daily_equity.map EquitySnap.date =
      List.replicate trivialRunResult.daily_equity.length (dateIso 0) :=
  C10_daily_equity_single_date 1000 [] [] 0 1 trivialRunResult (by
    rw [BacktestEngine_runBacktest]
    norm_num [sortSignals, engineStep, qdiv, ExecState.init, trivialRunResult,
      Except.bind, pure, Except.pure])
